import Mathlib

/-!
# Verification of the Vim debug-adapter bridge (`src/DebugSession.ts`)

This file gives a shallow embedding of the bridge session logic of
`DebugSession.ts` (the `VimDebugSession` class) and proves properties of it.

The embedding follows the source closely:

* stateful methods of the class become functions
  `... → SessionState → SessionState × List Effect` (or `Except VimCrash ...`
  when the JavaScript can throw out of the handler);
* the mutable fields `vim`, `vim_command_request`, `next_request_id`,
  `vim_requests`, `did_start_vim`, `var_refs` become the fields of
  `SessionState` (the pending-request `Map` is modelled by its key list,
  with the resolver calls surfaced as `Effect.resolveFuture` /
  `Effect.rejectFuture` events);
* observable actions (`writeToVim`, `sendResponse`, `sendErrorResponse`,
  `sendEvent`, resolving a stored promise) become `Effect` values, listed in
  the order the source performs them;
* JSON values (`Arguments: any`) are modelled by an inductive `Json` type.
-/

namespace VimDebugAdapter

/-- A JSON value, modelling the untyped `Arguments: any` payloads. -/
inductive Json where
  | null : Json
  | bool (b : Bool) : Json
  | num (n : Int) : Json
  | str (s : String) : Json
  | arr (elems : List Json) : Json
  | obj (fields : List (String × Json)) : Json

/-- JavaScript property read `j[k]` on an object: `none` models `undefined`. -/
def Json.getField : Json → String → Option Json
  | .obj fields, k => (fields.find? (fun p => p.1 = k)).map (fun p => p.2)
  | _, _ => none

/-- JavaScript property write `j[k] = v` on an object (overwrite or append). -/
def Json.setField : Json → String → Json → Json
  | .obj fields, k, v =>
      if (fields.find? (fun p => p.1 = k)).isSome then
        .obj (fields.map (fun p => if p.1 = k then (k, v) else p))
      else
        .obj (fields ++ [(k, v)])
  | j, _, _ => j

/-- Embedding of `interface VimMessage` (lines 30-34): `Arguments?` is optional, so it is
an `Option Json` (`none` models the absent/`undefined` field). -/
structure VimMessage where
  Message_type : String
  Function : String
  Arguments : Option Json := none

/-- Embedding of `interface VimRequest` (lines 25-28): the envelope id and message of the
open long-poll (command slot). -/
structure VimRequest where
  id : Int
  msg : VimMessage

/-- Embedding of `interface VariableRef` (lines 63-66). -/
structure VariableRef where
  stack_level : Nat
  scope : String

/-- Embedding of `interface VimFrame` (lines 41-48). -/
structure VimFrame where
  stack_level : Nat
  name : String
  line : Nat
  source_line : Option Nat := none
  source_file : Option String := none
  type : String

/-- The scope record handed to the editor by `new DA.Scope(name, idx,
expensive)` via the `Scope` subclass (lines 68-78). -/
structure DAScope where
  name : String
  variablesReference : Nat
  expensive : Bool

/-- The breakpoint record handed to the editor by
`new DA.Breakpoint(true, bp.line, 0, new DA.Source(name, path))`
(lines 216-221). -/
structure DABreakpoint where
  verified : Bool
  line : Nat
  column : Nat
  source_name : String
  source_path : String

/-- A record written down the socket by `writeToVim` (lines 505-518), at the
granularity of its three callers:
`Wire.reply` is `writeResponseToVim`'s `[ this.vim_command_request!.id, response ]`,
`Wire.request` is `requestFromVim`'s `[ 0, request ]`,
`Wire.command` is `writeCommandToVim`'s `[ mode, cmd ]`. -/
inductive Wire where
  | reply (id : Int) (msg : VimMessage) : Wire
  | request (msg : VimMessage) : Wire
  | command (mode : String) (cmd : String) : Wire

/-- Events pushed to the editor by `sendEvent`. -/
inductive EditorEvent where
  | initialized : EditorEvent
  | stopped (reason : Option Json) : EditorEvent
  | terminated : EditorEvent

/-- Observable actions of the session, in source order.
`resolveFuture id msg` models calling the stored `resolve` of the pending
request `id`; `rejectFuture` models calling its stored `reject` — note that
`DebugSession.ts` declares `reject` in `PendingRequest` (line 38) but never
invokes it anywhere, so no definition below ever emits `rejectFuture`. -/
inductive Effect where
  | writeToVim (w : Wire) : Effect
  | sendResponse (request : String) : Effect
  | sendErrorResponse (request : String) (code : Int) (message : String) : Effect
  | sendEvent (e : EditorEvent) : Effect
  | resolveFuture (request_id : Nat) (msg : VimMessage) : Effect
  | rejectFuture (request_id : Nat) (message : String) : Effect

/-- The mutable fields of `VimDebugSession` (lines 82-87). `vim_connected`
models whether `this.vim` is set; `vim_requests` models the key set of the
pending-request `Map` (its values are the promise resolvers, surfaced as
effects). -/
structure SessionState where
  vim_connected : Bool := false
  vim_command_request : Option VimRequest := none
  next_request_id : Nat := 0
  vim_requests : List Nat := []
  did_start_vim : Bool := false
  var_refs : List VariableRef := []

/-- Model of `Map.set(k, v)` on the key set: keys are unique, an existing key keeps
its place (its value is replaced, which the key set does not see). -/
def insertKey (pending : List Nat) (k : Nat) : List Nat :=
  if k ∈ pending then pending else pending ++ [k]

/-- Model of `Map.delete(k)` on the key set. -/
def eraseKey (pending : List Nat) (k : Nat) : List Nat :=
  pending.filter (fun x => x ≠ k)

/-- Lines 521-522: `request.Arguments = request.Arguments || {}` followed by
`request.Arguments['request_id'] = this.next_request_id++` (the stamped id). -/
def stampRequestId (request : VimMessage) (rid : Nat) : VimMessage :=
  let args := request.Arguments.getD (Json.obj [])
  { request with Arguments := some (args.setField "request_id" (Json.num (rid : Int))) }

/-- Embedding of `requestFromVim` (lines 520-530): stamp a fresh id into the payload,
record a pending entry keyed by it, write `[0, request]` through the Link.
Returns the stamped id (the key the returned promise is resolved under). -/
def requestFromVim (request : VimMessage) (s : SessionState) :
    Nat × SessionState × Effect :=
  let rid := s.next_request_id
  let stamped := stampRequestId request rid
  ( rid,
    { s with
        next_request_id := rid + 1,
        vim_requests := insertKey s.vim_requests rid },
    Effect.writeToVim (Wire.request stamped) )

/-- A line arriving from the Link, as seen by `onVimData` (line 532).
`invalidJson` models a line on which `JSON.parse(data)` (line 534) throws
`SyntaxError`; `record id msg` models a successfully parsed
`[ <id>, <actual msg> ]` pair. -/
inductive VimLine where
  | invalidJson : VimLine
  | record (id : Int) (msg : VimMessage) : VimLine

/-- An exception escaping the `onVimData` handler. `onVimData` has no
try/catch, so these propagate out of the readline `'line'` callback. -/
inductive VimCrash where
  | syntaxError : VimCrash
  | typeError : VimCrash

/-- Model of `Map.get(key)` where `key` is `msg.Arguments['request_id']` (a `Json`
field read). The map keys are numbers; only a numeric key can match. -/
def findPending (pending : List Nat) (key : Option Json) : Option Nat :=
  match key with
  | some (Json.num n) => pending.find? (fun k => (k : Int) == n)
  | _ => none

/-- Embedding of `onVimData` (lines 532-579). The `switch` on `msg.Message_type`:
* `'Notify'` / `'Break'`: reads `msg.Arguments['Reason']` — a `TypeError`
  when `Arguments` is absent — and sends a `StoppedEvent`;
* `'Request'` / `'GetCommand'` or `'Initialize'`: unconditionally assigns
  `this.vim_command_request = { id, msg }` (no check that a slot is already
  open); `Initialize` additionally sends `InitializedEvent`;
* `'Reply'`: reads `msg.Arguments['request_id']` (a `TypeError` when
  `Arguments` is absent), resolves and deletes the matching pending entry
  if found, else falls through silently;
* any other `Message_type` falls out of the `switch`. -/
def onVimData (line : VimLine) (s : SessionState) :
    Except VimCrash (SessionState × List Effect) :=
  match line with
  | .invalidJson => .error .syntaxError
  | .record id msg =>
    if msg.Message_type = "Notify" then
      if msg.Function = "Break" then
        match msg.Arguments with
        | none => .error .typeError
        | some args =>
            .ok (s, [Effect.sendEvent (EditorEvent.stopped (args.getField "Reason"))])
      else
        .ok (s, [])
    else if msg.Message_type = "Request" then
      if msg.Function = "GetCommand" then
        .ok ({ s with vim_command_request := some ⟨id, msg⟩ }, [])
      else if msg.Function = "Initialize" then
        .ok ({ s with vim_command_request := some ⟨id, msg⟩ },
             [Effect.sendEvent EditorEvent.initialized])
      else
        .ok (s, [])
    else if msg.Message_type = "Reply" then
      match msg.Arguments with
      | none => .error .typeError
      | some args =>
        match findPending s.vim_requests (args.getField "request_id") with
        | some k =>
            .ok ({ s with vim_requests := eraseKey s.vim_requests k },
                 [Effect.resolveFuture k msg])
        | none => .ok (s, [])
    else
      .ok (s, [])

/-- Embedding of `onVimConnectionClosed` (lines 581-588): send `TerminatedEvent`, clear
`vim`, `did_start_vim` and `vim_command_request`. Note the source touches
nothing else: `vim_requests` (the pending futures) and `var_refs` keep their
contents, and no stored `reject` is ever called. -/
def onVimConnectionClosed (s : SessionState) : SessionState × List Effect :=
  ( { s with
        vim_connected := false,
        did_start_vim := false,
        vim_command_request := none },
    [Effect.sendEvent EditorEvent.terminated] )

/-- Embedding of `configurationDoneRequest` (lines 237-260): no open slot → error `-200`;
open slot not `Initialize` → error `-201`; otherwise `writeResponseToVim`
(write `[slot.id, Reply]`, clear the slot — inlined here with the slot known
present) then `sendResponse`. -/
def configurationDoneRequest (s : SessionState) : SessionState × List Effect :=
  match s.vim_command_request with
  | none =>
      (s, [Effect.sendErrorResponse "configurationDone" (-200) "Vim is not paused"])
  | some req =>
      if req.msg.Function ≠ "Initialize" then
        (s, [Effect.sendErrorResponse "configurationDone" (-201)
               "Vim is not waiting for init"])
      else
        ( { s with vim_command_request := none },
          [ Effect.writeToVim (Wire.reply req.id
              { Message_type := "Reply", Function := req.msg.Function }),
            Effect.sendResponse "configurationDone" ] )

/-- Embedding of `vimCommand` (lines 419-438): no open slot → error `-100`; open slot not
`GetCommand` → error `-101`; otherwise `writeResponseToVim` with
`Arguments: { Command: cmd }` (inlined, the slot known present) then
`sendResponse`. `request` names the editor request being answered. -/
def vimCommand (request : String) (cmd : String) (s : SessionState) :
    SessionState × List Effect :=
  match s.vim_command_request with
  | none =>
      (s, [Effect.sendErrorResponse request (-100) "Vim is not paused"])
  | some req =>
      if req.msg.Function ≠ "GetCommand" then
        (s, [Effect.sendErrorResponse request (-101) "Vim is not initialized"])
      else
        ( { s with vim_command_request := none },
          [ Effect.writeToVim (Wire.reply req.id
              { Message_type := "Reply", Function := req.msg.Function,
                Arguments := some (Json.obj [("Command", Json.str cmd)]) }),
            Effect.sendResponse request ] )

/-- Embedding of `continueRequest` (lines 440-445). -/
def continueRequest (s : SessionState) : SessionState × List Effect :=
  vimCommand "continue" "cont" s

/-- Embedding of `nextRequest` (lines 447-452). -/
def nextRequest (s : SessionState) : SessionState × List Effect :=
  vimCommand "next" "next" s

/-- Embedding of `stepInRequest` (lines 454-459). -/
def stepInRequest (s : SessionState) : SessionState × List Effect :=
  vimCommand "stepIn" "step" s

/-- Embedding of `stepOutRequest` (lines 461-466). -/
def stepOutRequest (s : SessionState) : SessionState × List Effect :=
  vimCommand "stepOut" "finish" s

/-- Embedding of `terminateRequest` (lines 412-417). -/
def terminateRequest (s : SessionState) : SessionState × List Effect :=
  vimCommand "terminate" ":qa!" s

/-- Embedding of `disconnectRequest` (lines 395-410). Note the final `else if` has no
`else`: with `terminateDebuggee` false, `did_start_vim` false and no open
slot the method returns without sending any response or writing anything. -/
def disconnectRequest (terminateDebuggee : Bool) (s : SessionState) :
    SessionState × List Effect :=
  if terminateDebuggee || s.did_start_vim then
    match s.vim_command_request with
    | some _ => vimCommand "disconnect" ":qa!" s
    | none =>
        (s, [ Effect.writeToVim (Wire.command "ex" "qa!"),
              Effect.sendResponse "disconnect" ])
  else
    match s.vim_command_request with
    | some _ => vimCommand "disconnect" "quit" s
    | none => (s, [])

/-- The `clearLineBreakpoints` request payload built at lines 198-204. -/
def clearLineBreakpointsMsg (file : String) : VimMessage :=
  { Message_type := "Request", Function := "clearLineBreakpoints",
    Arguments := some (Json.obj [("file", Json.str file)]) }

/-- The `setLineBreakpoint` request payload built at lines 207-214. -/
def setLineBreakpointMsg (file : String) (line : Nat) : VimMessage :=
  { Message_type := "Request", Function := "setLineBreakpoint",
    Arguments := some (Json.obj [("file", Json.str file),
                                 ("line", Json.num (line : Int))]) }

/-- The `for ( const bp of breakpoints )` loop of `setBreakPointsRequest`
(lines 206-222): per requested line, one `requestFromVim` (whose promise
joins the `Promise.all` list) and one optimistic `verified: true` breakpoint
pushed into the response body. Returns the state after all sends, the write
effects, the stamped ids awaited by `Promise.all`, and the response
breakpoints. -/
def setBpLoop (file source_name : String) (lines : List Nat) (s : SessionState) :
    SessionState × List Effect × List Nat × List DABreakpoint :=
  match lines with
  | [] => (s, [], [], [])
  | l :: rest =>
      let r := requestFromVim (setLineBreakpointMsg file l) s
      let bp : DABreakpoint :=
        { verified := true, line := l, column := 0,
          source_name := source_name, source_path := file }
      let rec_rest := setBpLoop file source_name rest r.2.1
      (rec_rest.1, r.2.2 :: rec_rest.2.1, r.1 :: rec_rest.2.2.1,
       bp :: rec_rest.2.2.2)

/-- Embedding of `setBreakPointsRequest` (lines 188-227), up to the `await Promise.all`:
one `clearLineBreakpoints(file)` request first, then the per-line loop. The
`sendResponse` at line 226 runs only after every returned id has been
resolved, which is modelled by `promiseAllSettled` below. -/
def setBreakPointsRequest (file source_name : String) (lines : List Nat)
    (s : SessionState) :
    SessionState × List Effect × List Nat × List DABreakpoint :=
  let r0 := requestFromVim (clearLineBreakpointsMsg file) s
  let rest := setBpLoop file source_name lines r0.2.1
  (rest.1, r0.2.2 :: rest.2.1, r0.1 :: rest.2.2.1, rest.2.2.2)

/-- Model of the fact that `await Promise.all(promises)` (line 224) has completed exactly when none
of the awaited ids is still pending: each promise is resolved precisely when
`onVimData` removes its id from the map (lines 573-576). -/
def promiseAllSettled (ids : List Nat) (s : SessionState) : Bool :=
  ids.all (fun i => ! s.vim_requests.contains i)

/-- The `Scope` subclass constructor (lines 68-78): read `idx =
var_refs.length`, push `{ scope, stack_level }`, hand the editor the record
`(name, idx, expensive)`. -/
def pushScope (var_refs : List VariableRef) (name : String) (level : Nat)
    (scope : String) (expensive : Bool) : List VariableRef × DAScope :=
  let idx := var_refs.length
  ( var_refs ++ [{ stack_level := level, scope := scope }],
    { name := name, variablesReference := idx, expensive := expensive } )

/-- The matched-frame body of `scopesRequest` (lines 313-349): for a
`"UFUNC"` frame push a local (`'l'`, `expensive: false`) scope first, then
always push Script/Global/Buffer/Window/Tab/Vim scopes (`expensive` left at
its default `true`). Returns the updated state and the `response.body.scopes`
list in push order. -/
def scopesForFrame (f : VimFrame) (frameId : Nat) (s : SessionState) :
    SessionState × List DAScope :=
  let first :=
    if f.type = "UFUNC" then
      let p := pushScope s.var_refs f.name frameId "l" false
      (p.1, [p.2])
    else
      (s.var_refs, ([] : List DAScope))
  let pS := pushScope first.1 "Script" frameId "s" true
  let pG := pushScope pS.1 "Global" frameId "g" true
  let pB := pushScope pG.1 "Buffer" frameId "b" true
  let pW := pushScope pB.1 "Window" frameId "w" true
  let pT := pushScope pW.1 "Tab" frameId "t" true
  let pV := pushScope pT.1 "Vim" frameId "v" true
  ( { s with var_refs := pV.1 },
    first.2 ++ [pS.2, pG.2, pB.2, pW.2, pT.2, pV.2] )

/-- Embedding of `scopesRequest` (lines 298-353) after its awaited `stackTrace` round
trip: `frames` is the frame list of the reply (the `requestFromVim` call at
lines 307-310 goes through the Correlator exactly as modelled by
`requestFromVim`). The loop takes the first frame whose `stack_level` equals
`frameId`, builds the scopes and sends the response; if none matches it
sends error `-101`. Returns the state, `response.body.scopes` and the
editor-facing effects. -/
def scopesRequest (frames : List VimFrame) (frameId : Nat) (s : SessionState) :
    SessionState × List DAScope × List Effect :=
  match frames with
  | [] => (s, [], [Effect.sendErrorResponse "scopes" (-101) "Invalid frame"])
  | f :: rest =>
      if f.stack_level = frameId then
        let p := scopesForFrame f frameId s
        (p.1, p.2, [Effect.sendResponse "scopes"])
      else
        scopesRequest rest frameId s

/-- Embedding of `variablesRequest` (lines 355-380) up to its awaited `variables` round
trip: line 362 reads `this.var_refs[args.variablesReference]`, which is
`undefined` for an out-of-range index, so the `ref.stack_level` read at line
368 throws a `TypeError` — the operation fails before any request is issued
and no variable data is returned. In range, the `variables` request is
issued through the Correlator; translating the awaited reply into editor
variables (lines 373-377) happens after the returned id resolves. -/
def variablesRequest (handle : Nat) (s : SessionState) :
    Except VimCrash (Nat × SessionState × Effect) :=
  match s.var_refs[handle]? with
  | none => .error .typeError
  | some ref =>
      .ok (requestFromVim
        { Message_type := "Request", Function := "variables",
          Arguments := some (Json.obj
            [("stack_level", Json.num (ref.stack_level : Int)),
             ("scope", Json.str ref.scope)]) } s)

/-- Invariant of the Correlator state: every pending id was stamped by an
earlier `requestFromVim`, hence is below the counter. -/
def idsBounded (s : SessionState) : Prop :=
  ∀ i ∈ s.vim_requests, i < s.next_request_id

/-- A well-formed `Reply` record as the hook sends it (§6 of the spec):
`Arguments.request_id` echoes the stamped id of a bridge-initiated request. -/
def replyMsg (fn : String) (rid : Nat) : VimMessage :=
  { Message_type := "Reply", Function := fn,
    Arguments := some (Json.obj [("request_id", Json.num (rid : Int))]) }

section HelperLemmas

theorem findPending_mem (pending : List Nat) (rid : Nat) (h : rid ∈ pending) :
    findPending pending (some (Json.num (rid : Int))) = some rid := by
  unfold findPending
  induction pending with
  | nil => cases h
  | cons a t ih =>
    rcases List.mem_cons.mp h with h1 | h2
    · subst h1; simp [List.find?]
    · by_cases ha : a = rid
      · subst ha; simp [List.find?]
      · have hb : ((a : Int) == (rid : Int)) = false := by
          simp [ha]
        simp only [List.find?, hb]
        exact ih h2

theorem findPending_not_mem (pending : List Nat) (rid : Nat) (h : rid ∉ pending) :
    findPending pending (some (Json.num (rid : Int))) = none := by
  unfold findPending
  apply List.find?_eq_none.mpr
  intro x hx
  have hxr : x ≠ rid := fun e => h (e ▸ hx)
  simp [hxr]

end HelperLemmas

/-- C1: the claim says that when the Link closes with pending bridge-initiated
requests, every outstanding future fails with a connection-closed error, the
slot is dropped and the editor is notified. The code drops the slot and sends
`TerminatedEvent`, but it leaves the pending map untouched and never calls any
stored `reject`: with ids 0 and 1 pending, after `onVimConnectionClosed` both
are still pending, the only effect is the terminated event, and in particular
no `rejectFuture` effect is emitted — the futures stay unresolved forever. -/
theorem C1_close_leaves_futures_pending :
    onVimConnectionClosed
      { vim_connected := true,
        vim_command_request := some ⟨5, { Message_type := "Request", Function := "GetCommand" }⟩,
        next_request_id := 2, vim_requests := [0, 1], did_start_vim := true } =
    ({ vim_connected := false, vim_command_request := none,
       next_request_id := 2, vim_requests := [0, 1], did_start_vim := false },
     [Effect.sendEvent EditorEvent.terminated]) := rfl

/-- C2 counterexample: the claim says a second slot-opening request arriving
while a slot is already open is rejected and the open slot is never silently
overwritten. With an `Initialize` slot (envelope id 1) open, an incoming
`GetCommand` request (envelope id 2) is processed with no error effect at all
and the slot now holds the new request — the old slot was silently
overwritten and nothing was rejected. -/
theorem C2_counterexample :
    onVimData (VimLine.record 2 { Message_type := "Request", Function := "GetCommand" })
      { vim_connected := true,
        vim_command_request := some ⟨1, { Message_type := "Request", Function := "Initialize" }⟩ } =
    Except.ok
      ({ vim_connected := true,
         vim_command_request := some ⟨2, { Message_type := "Request", Function := "GetCommand" }⟩ },
       []) := rfl

/-- C2 (amended): at most one command slot is open at any time because the
slot is a single field, but a second slot-opening request (`Initialize` or
`GetCommand`) arriving while a slot is open is not rejected: it silently
replaces the existing slot, and no error is reported to anyone. -/
theorem C2_second_request_overwrites_slot (s : SessionState) (id : Int)
    (msg : VimMessage) (hmt : msg.Message_type = "Request")
    (hf : msg.Function = "GetCommand" ∨ msg.Function = "Initialize") :
    ∃ es, onVimData (VimLine.record id msg) s =
        Except.ok ({ s with vim_command_request := some ⟨id, msg⟩ }, es) ∧
        ∀ r c m, Effect.sendErrorResponse r c m ∉ es := by
  rcases hf with hf | hf
  · exact ⟨[], by simp [onVimData, hmt, hf], by simp⟩
  · exact ⟨[Effect.sendEvent EditorEvent.initialized],
      by simp [onVimData, hmt, hf], by simp⟩

/-- C2 witness: the amended theorem applied at the state of the
counterexample. -/
theorem C2_second_request_overwrites_slot_witness :
    ("GetCommand" : String) = "GetCommand" ∧
    ∃ es, onVimData (VimLine.record 2 { Message_type := "Request", Function := "GetCommand" })
        { vim_connected := true,
          vim_command_request := some ⟨1, { Message_type := "Request", Function := "Initialize" }⟩ } =
      Except.ok
        ({ vim_connected := true,
           vim_command_request := some ⟨2, { Message_type := "Request", Function := "GetCommand" }⟩ },
         es) ∧
      ∀ r c m, Effect.sendErrorResponse r c m ∉ es :=
  ⟨rfl, C2_second_request_overwrites_slot
    { vim_connected := true,
      vim_command_request := some ⟨1, { Message_type := "Request", Function := "Initialize" }⟩ }
    2 { Message_type := "Request", Function := "GetCommand" } rfl (Or.inl rfl)⟩

/-- C3: the claim says no malformed inbound record may terminate the bridge —
worst case a logged, dropped record. But `onVimData` has no error handling:
a line that is not valid JSON makes `JSON.parse` (line 534) throw
`SyntaxError`, and a `Notify`/`Break` record with no `Arguments` makes the
`msg.Arguments['Reason']` read (line 542) throw `TypeError`; both escape the
readline `'line'` handler uncaught instead of being logged and dropped. -/
theorem C3_malformed_record_throws :
    onVimData VimLine.invalidJson { } = Except.error VimCrash.syntaxError ∧
    onVimData (VimLine.record 1 { Message_type := "Notify", Function := "Break" }) { } =
      Except.error VimCrash.typeError := ⟨rfl, rfl⟩

/-- C7: the claim says the variable reference table is emptied at the start of
each new `Paused` state. The `Notify`/`Break` handler (lines 539-544) — the
transition into `Paused` — only sends the stopped event: with two entries
left over from an earlier pause the table is identical afterwards. Indeed no
statement in `DebugSession.ts` ever clears `var_refs`: the `Scope`
constructor only pushes, and `onVimConnectionClosed` does not touch it
(see `C1_close_leaves_futures_pending` for its full effect), so the table
grows without bound across pauses. -/
theorem C7_table_not_recycled_on_pause :
    onVimData
      (VimLine.record 3
        { Message_type := "Notify", Function := "Break",
          Arguments := some (Json.obj [("Reason", Json.str "Breakpoint")]) })
      { vim_connected := true, var_refs := [⟨0, "l"⟩, ⟨0, "s"⟩] } =
    Except.ok
      ({ vim_connected := true, var_refs := [⟨0, "l"⟩, ⟨0, "s"⟩] },
       [Effect.sendEvent (EditorEvent.stopped (some (Json.str "Breakpoint")))]) := rfl

/-- C9: a variables request whose handle is at or beyond the length of the
variable reference table fails — `this.var_refs[handle]` is `undefined`, the
`ref.stack_level` read throws — and in particular no `variables` request is
issued to the interpreter and no variable data is returned. -/
theorem C9_out_of_range_handle_errors (handle : Nat) (s : SessionState)
    (h : s.var_refs.length ≤ handle) :
    variablesRequest handle s = Except.error VimCrash.typeError := by
  unfold variablesRequest
  rw [List.getElem?_eq_none h]

/-- C9 witness: resolving handle 3 against a one-entry table errors. -/
theorem C9_out_of_range_handle_errors_witness :
    (({ var_refs := [⟨0, "g"⟩] } : SessionState)).var_refs.length ≤ 3 ∧
    variablesRequest 3 { var_refs := [⟨0, "g"⟩] } = Except.error VimCrash.typeError :=
  ⟨by decide, C9_out_of_range_handle_errors 3 { var_refs := [⟨0, "g"⟩] } (by decide)⟩

/-- C10: a `disconnect` with `terminateDebuggee` unset, in attach mode
(`did_start_vim` false) and with no open command slot falls through every
branch of `disconnectRequest`: the state is unchanged and there is no effect
at all — no response to the editor, no write to the interpreter. -/
theorem C10_attach_disconnect_unanswered (s : SessionState)
    (h1 : s.did_start_vim = false) (h2 : s.vim_command_request = none) :
    disconnectRequest false s = (s, []) := by
  unfold disconnectRequest
  rw [h1, h2]
  rfl

/-- C4: under the Correlator invariant `idsBounded` (every pending id is
below the counter), `requestFromVim` stamps the current counter value as the
id — an id that is in no pending entry, so it is fresh and, the counter being
incremented, never reused; a `Reply` echoing a pending `request_id` resolves
exactly that future and deletes exactly that entry (every other pending id
survives), whatever the envelope id, function name, or arrival order; and a
`Reply` echoing an unknown `request_id` leaves the state untouched with no
effect — dropped silently. -/
theorem C4_request_reply_correlation (s : SessionState) (m : VimMessage)
    (fn : String) (rid : Nat) (envId : Int) (hinv : idsBounded s) :
    (requestFromVim m s).1 = s.next_request_id ∧
    (requestFromVim m s).1 ∉ s.vim_requests ∧
    (requestFromVim m s).2.1.vim_requests = s.vim_requests ++ [s.next_request_id] ∧
    (requestFromVim m s).2.1.next_request_id = s.next_request_id + 1 ∧
    idsBounded (requestFromVim m s).2.1 ∧
    (requestFromVim m s).2.2 =
      Effect.writeToVim (Wire.request (stampRequestId m s.next_request_id)) ∧
    (rid ∈ s.vim_requests →
      onVimData (VimLine.record envId (replyMsg fn rid)) s =
        Except.ok ({ s with vim_requests := eraseKey s.vim_requests rid },
                   [Effect.resolveFuture rid (replyMsg fn rid)]) ∧
      rid ∉ eraseKey s.vim_requests rid ∧
      ∀ j ∈ s.vim_requests, j ≠ rid → j ∈ eraseKey s.vim_requests rid) ∧
    (rid ∉ s.vim_requests →
      onVimData (VimLine.record envId (replyMsg fn rid)) s = Except.ok (s, [])) := by
  have hfresh : s.next_request_id ∉ s.vim_requests := by
    intro hmem
    exact absurd (hinv _ hmem) (lt_irrefl _)
  refine ⟨rfl, hfresh, ?_, rfl, ?_, rfl, ?_, ?_⟩
  · simp [requestFromVim, insertKey, hfresh]
  · intro i hi
    simp only [requestFromVim, insertKey, if_neg hfresh, List.mem_append,
      List.mem_singleton] at hi
    rcases hi with hi | hi
    · exact Nat.lt_succ_of_lt (hinv _ hi)
    · subst hi; simp [requestFromVim]
  · intro hmem
    refine ⟨?_, ?_, ?_⟩
    · simp [onVimData, replyMsg, Json.getField, List.find?,
        findPending_mem s.vim_requests rid hmem]
    · simp [eraseKey]
    · intro j hj hne
      simp [eraseKey, List.mem_filter, hj, hne]
  · intro hmem
    simp [onVimData, replyMsg, Json.getField, List.find?,
      findPending_not_mem s.vim_requests rid hmem]

/-- C4 witness: the correlation theorem at a concrete state with pending ids
0 and 1, replying to id 1. -/
theorem C4_request_reply_correlation_witness :
    idsBounded { next_request_id := 2, vim_requests := [0, 1] } ∧
    (1 ∈ ([0, 1] : List Nat)) ∧
    onVimData (VimLine.record 9 (replyMsg "stackTrace" 1))
        { next_request_id := 2, vim_requests := [0, 1] } =
      Except.ok
        ({ next_request_id := 2, vim_requests := eraseKey [0, 1] 1 },
         [Effect.resolveFuture 1 (replyMsg "stackTrace" 1)]) := by
  have h := C4_request_reply_correlation
    { next_request_id := 2, vim_requests := [0, 1] }
    { Message_type := "Request", Function := "stackTrace" } "stackTrace" 1 9
    (by intro i hi; fin_cases hi <;> decide)
  exact ⟨by intro i hi; fin_cases hi <;> decide, by decide,
    (h.2.2.2.2.2.2.1 (by decide)).1⟩

/-- C5: `configurationDone` answers only an open `Initialize` slot, and the
stepping commands — `continue`, `next`, `stepIn`, `stepOut` (and
`terminate`), all routed through `vimCommand` — answer only an open
`GetCommand` slot; in every other situation the editor call is rejected with
a stable error code (`-200`/`-201` for `configurationDone`, `-100`/`-101`
for `vimCommand`), the state is unchanged, and no crash occurs: each branch
returns normally with exactly one response effect. -/
theorem C5_slot_kind_discipline (s : SessionState) (request cmd : String) :
    (s.vim_command_request = none →
      configurationDoneRequest s =
        (s, [Effect.sendErrorResponse "configurationDone" (-200) "Vim is not paused"]) ∧
      vimCommand request cmd s =
        (s, [Effect.sendErrorResponse request (-100) "Vim is not paused"])) ∧
    (∀ req, s.vim_command_request = some req →
      (req.msg.Function = "Initialize" →
        configurationDoneRequest s =
          ({ s with vim_command_request := none },
           [ Effect.writeToVim (Wire.reply req.id
               { Message_type := "Reply", Function := req.msg.Function }),
             Effect.sendResponse "configurationDone" ])) ∧
      (req.msg.Function ≠ "Initialize" →
        configurationDoneRequest s =
          (s, [Effect.sendErrorResponse "configurationDone" (-201)
                 "Vim is not waiting for init"])) ∧
      (req.msg.Function = "GetCommand" →
        vimCommand request cmd s =
          ({ s with vim_command_request := none },
           [ Effect.writeToVim (Wire.reply req.id
               { Message_type := "Reply", Function := req.msg.Function,
                 Arguments := some (Json.obj [("Command", Json.str cmd)]) }),
             Effect.sendResponse request ])) ∧
      (req.msg.Function ≠ "GetCommand" →
        vimCommand request cmd s =
          (s, [Effect.sendErrorResponse request (-101) "Vim is not initialized"]))) ∧
    continueRequest s = vimCommand "continue" "cont" s ∧
    nextRequest s = vimCommand "next" "next" s ∧
    stepInRequest s = vimCommand "stepIn" "step" s ∧
    stepOutRequest s = vimCommand "stepOut" "finish" s ∧
    terminateRequest s = vimCommand "terminate" ":qa!" s := by
  refine ⟨?_, ?_, rfl, rfl, rfl, rfl, rfl⟩
  · intro h
    constructor
    · simp [configurationDoneRequest, h]
    · simp [vimCommand, h]
  · intro req hreq
    refine ⟨?_, ?_, ?_, ?_⟩
    · intro hfn; simp [configurationDoneRequest, hreq, hfn]
    · intro hfn; simp [configurationDoneRequest, hreq, hfn]
    · intro hfn; simp [vimCommand, hreq, hfn]
    · intro hfn; simp [vimCommand, hreq, hfn]

/-- C5 witness: with a `GetCommand` slot open, `configurationDone` is
rejected with `-201` while `continue` (through `vimCommand`) answers and
closes the slot; with no slot open, `next` is rejected with `-100`. -/
theorem C5_slot_kind_discipline_witness :
    configurationDoneRequest
        { vim_command_request := some ⟨7, { Message_type := "Request", Function := "GetCommand" }⟩ } =
      ({ vim_command_request := some ⟨7, { Message_type := "Request", Function := "GetCommand" }⟩ },
       [Effect.sendErrorResponse "configurationDone" (-201) "Vim is not waiting for init"]) ∧
    vimCommand "continue" "cont"
        { vim_command_request := some ⟨7, { Message_type := "Request", Function := "GetCommand" }⟩ } =
      ({ vim_command_request := none },
       [ Effect.writeToVim (Wire.reply 7
           { Message_type := "Reply", Function := "GetCommand",
             Arguments := some (Json.obj [("Command", Json.str "cont")]) }),
         Effect.sendResponse "continue" ]) ∧
    vimCommand "next" "next" { } =
      ({ }, [Effect.sendErrorResponse "next" (-100) "Vim is not paused"]) := by
  have h1 := C5_slot_kind_discipline
    { vim_command_request := some ⟨7, { Message_type := "Request", Function := "GetCommand" }⟩ }
    "continue" "cont"
  have h2 := C5_slot_kind_discipline { } "next" "next"
  exact ⟨(h1.2.1 _ rfl).2.1 (by decide),
    (h1.2.1 _ rfl).2.2.1 rfl,
    (h2.1 rfl).2⟩

/-- Per-line behaviour of the `setBreakPointsRequest` loop, by induction:
ids stamped in order from the counter, one `setLineBreakpoint` write per
line, one `verified: true` breakpoint per line. -/
theorem setBpLoop_spec (file sname : String) (lines : List Nat) :
    ∀ s : SessionState, idsBounded s →
      (setBpLoop file sname lines s).1.next_request_id =
        s.next_request_id + lines.length ∧
      (setBpLoop file sname lines s).1.vim_requests =
        s.vim_requests ++ List.range' s.next_request_id lines.length ∧
      idsBounded (setBpLoop file sname lines s).1 ∧
      (setBpLoop file sname lines s).2.1 =
        (lines.zip (List.range' s.next_request_id lines.length)).map
          (fun p => Effect.writeToVim
            (Wire.request (stampRequestId (setLineBreakpointMsg file p.1) p.2))) ∧
      (setBpLoop file sname lines s).2.2.1 =
        List.range' s.next_request_id lines.length ∧
      (setBpLoop file sname lines s).2.2.2 =
        lines.map (fun l => { verified := true, line := l, column := 0,
                              source_name := sname, source_path := file }) := by
  induction lines with
  | nil =>
      intro s hs
      exact ⟨by simp [setBpLoop], by simp [setBpLoop],
        by simpa [setBpLoop] using hs, by simp [setBpLoop],
        by simp [setBpLoop], by simp [setBpLoop]⟩
  | cons l rest ih =>
      intro s hs
      have hfresh : s.next_request_id ∉ s.vim_requests := by
        intro hmem; exact absurd (hs _ hmem) (lt_irrefl _)
      have hstep : setBpLoop file sname (l :: rest) s =
          ((setBpLoop file sname rest
              { s with next_request_id := s.next_request_id + 1,
                       vim_requests := s.vim_requests ++ [s.next_request_id] }).1,
           Effect.writeToVim (Wire.request
               (stampRequestId (setLineBreakpointMsg file l) s.next_request_id))
             :: (setBpLoop file sname rest
              { s with next_request_id := s.next_request_id + 1,
                       vim_requests := s.vim_requests ++ [s.next_request_id] }).2.1,
           s.next_request_id
             :: (setBpLoop file sname rest
              { s with next_request_id := s.next_request_id + 1,
                       vim_requests := s.vim_requests ++ [s.next_request_id] }).2.2.1,
           { verified := true, line := l, column := 0,
             source_name := sname, source_path := file }
             :: (setBpLoop file sname rest
              { s with next_request_id := s.next_request_id + 1,
                       vim_requests := s.vim_requests ++ [s.next_request_id] }).2.2.2) := by
        simp [setBpLoop, requestFromVim, insertKey, hfresh]
      have hs1 : idsBounded
          { s with next_request_id := s.next_request_id + 1,
                   vim_requests := s.vim_requests ++ [s.next_request_id] } := by
        intro i hi
        rcases List.mem_append.mp hi with h | h
        · exact Nat.lt_succ_of_lt (hs _ h)
        · simp only [List.mem_singleton] at h; subst h; exact Nat.lt_succ_self _
      obtain ⟨h1, h2, h3, h4, h5, h6⟩ := ih
        { s with next_request_id := s.next_request_id + 1,
                 vim_requests := s.vim_requests ++ [s.next_request_id] } hs1
      rw [hstep]
      refine ⟨?_, ?_, h3, ?_, ?_, ?_⟩
      · rw [h1]; simp; omega
      · rw [h2]; simp [List.range'_succ]
      · rw [h4]; simp [List.range'_succ]
      · rw [h5]; simp [List.range'_succ]
      · rw [h6]; simp

/-- C6: `setBreakPointsRequest file lines` issues exactly one
`clearLineBreakpoints` write for the file followed by exactly one
`setLineBreakpoint` write per requested line — all Correlator requests,
stamped with the consecutive fresh ids `next_request_id, ...` which are all
recorded as pending; the reply to the editor lists every requested line with
`verified: true` without any interpreter confirmation; and the editor
response is withheld until all issued ids resolve: right after issuance the
`Promise.all` is not settled, and indeed no effect of the issuance is
anything but a Link write. -/
theorem C6_setBreakpoints_clear_set_optimistic (file sname : String)
    (lines : List Nat) (s : SessionState) (hinv : idsBounded s) :
    (setBreakPointsRequest file sname lines s).2.1 =
      Effect.writeToVim (Wire.request
          (stampRequestId (clearLineBreakpointsMsg file) s.next_request_id)) ::
      (lines.zip (List.range' (s.next_request_id + 1) lines.length)).map
        (fun p => Effect.writeToVim
          (Wire.request (stampRequestId (setLineBreakpointMsg file p.1) p.2))) ∧
    (setBreakPointsRequest file sname lines s).2.2.1 =
      List.range' s.next_request_id (lines.length + 1) ∧
    (setBreakPointsRequest file sname lines s).2.2.2 =
      lines.map (fun l => { verified := true, line := l, column := 0,
                            source_name := sname, source_path := file }) ∧
    (setBreakPointsRequest file sname lines s).1.vim_requests =
      s.vim_requests ++ List.range' s.next_request_id (lines.length + 1) ∧
    promiseAllSettled (setBreakPointsRequest file sname lines s).2.2.1
      (setBreakPointsRequest file sname lines s).1 = false ∧
    ∀ e ∈ (setBreakPointsRequest file sname lines s).2.1,
      ∃ w, e = Effect.writeToVim w := by
  have hfresh : s.next_request_id ∉ s.vim_requests := by
    intro hmem; exact absurd (hinv _ hmem) (lt_irrefl _)
  have hstep : setBreakPointsRequest file sname lines s =
      ((setBpLoop file sname lines
          { s with next_request_id := s.next_request_id + 1,
                   vim_requests := s.vim_requests ++ [s.next_request_id] }).1,
       Effect.writeToVim (Wire.request
           (stampRequestId (clearLineBreakpointsMsg file) s.next_request_id))
         :: (setBpLoop file sname lines
          { s with next_request_id := s.next_request_id + 1,
                   vim_requests := s.vim_requests ++ [s.next_request_id] }).2.1,
       s.next_request_id
         :: (setBpLoop file sname lines
          { s with next_request_id := s.next_request_id + 1,
                   vim_requests := s.vim_requests ++ [s.next_request_id] }).2.2.1,
       (setBpLoop file sname lines
          { s with next_request_id := s.next_request_id + 1,
                   vim_requests := s.vim_requests ++ [s.next_request_id] }).2.2.2) := by
    simp [setBreakPointsRequest, requestFromVim, insertKey, hfresh]
  have hs1 : idsBounded
      { s with next_request_id := s.next_request_id + 1,
               vim_requests := s.vim_requests ++ [s.next_request_id] } := by
    intro i hi
    rcases List.mem_append.mp hi with h | h
    · exact Nat.lt_succ_of_lt (hinv _ h)
    · simp only [List.mem_singleton] at h; subst h; exact Nat.lt_succ_self _
  obtain ⟨h1, h2, h3, h4, h5, h6⟩ := setBpLoop_spec file sname lines
    { s with next_request_id := s.next_request_id + 1,
             vim_requests := s.vim_requests ++ [s.next_request_id] } hs1
  rw [hstep]
  have hpend : (setBpLoop file sname lines
      { s with next_request_id := s.next_request_id + 1,
               vim_requests := s.vim_requests ++ [s.next_request_id] }).1.vim_requests =
      s.vim_requests ++ List.range' s.next_request_id (lines.length + 1) := by
    rw [h2]; simp [List.range'_succ]
  refine ⟨?_, ?_, h6, hpend, ?_, ?_⟩
  · rw [h4]
  · rw [h5]; simp [List.range'_succ]
  · apply List.all_eq_false.mpr
    refine ⟨s.next_request_id, List.mem_cons_self _ _, ?_⟩
    rw [hpend]
    simp [List.range'_succ]
  · intro e he
    rcases List.mem_cons.mp he with h | h
    · exact ⟨_, h⟩
    · rw [h4] at h
      rcases List.mem_map.mp h with ⟨p, _, hp⟩
      exact ⟨_, hp.symm⟩

/-- C6 witness: two requested lines at the initial state give ids 0, 1, 2
(clear first), two `verified` breakpoints, and an unsettled `Promise.all`. -/
theorem C6_setBreakpoints_clear_set_optimistic_witness :
    idsBounded ({ } : SessionState) ∧
    (setBreakPointsRequest "a.vim" "a" [3, 5] { }).2.2.1 =
      List.range' ({ } : SessionState).next_request_id (([3, 5] : List Nat).length + 1) ∧
    (setBreakPointsRequest "a.vim" "a" [3, 5] { }).2.2.2 =
      ([3, 5] : List Nat).map
        (fun l => { verified := true, line := l, column := 0,
                    source_name := "a", source_path := "a.vim" }) ∧
    promiseAllSettled (setBreakPointsRequest "a.vim" "a" [3, 5] { }).2.2.1
      (setBreakPointsRequest "a.vim" "a" [3, 5] { }).1 = false := by
  have h := C6_setBreakpoints_clear_set_optimistic "a.vim" "a" [3, 5] { }
    (by intro i hi; cases hi)
  exact ⟨(by intro i hi; cases hi), h.2.1, h.2.2.1, h.2.2.2.2.1⟩

/-- C8: a scopes request whose `frameId` resolves to a frame (the first
stack-trace frame with that `stack_level`, after any number of non-matching
frames) appends, for a function-kind (`"UFUNC"`) frame, a local entry first
and then the Script/Global/Buffer/Window/Tab/Vim entries, and for any other
frame kind just the latter six: each append hands the editor a handle equal
to the table's length just before that append, the table only ever grows by
appending, and every pre-existing entry is still at its old index
afterwards. -/
theorem C8_scopes_append_only (pre post : List VimFrame) (f : VimFrame)
    (frameId : Nat) (s : SessionState)
    (hpre : ∀ g ∈ pre, g.stack_level ≠ frameId) (hf : f.stack_level = frameId) :
    (f.type = "UFUNC" →
      (scopesRequest (pre ++ f :: post) frameId s).1.var_refs =
        s.var_refs ++ [⟨frameId, "l"⟩, ⟨frameId, "s"⟩, ⟨frameId, "g"⟩,
          ⟨frameId, "b"⟩, ⟨frameId, "w"⟩, ⟨frameId, "t"⟩, ⟨frameId, "v"⟩] ∧
      (scopesRequest (pre ++ f :: post) frameId s).2.1 =
        [⟨f.name, s.var_refs.length, false⟩,
         ⟨"Script", s.var_refs.length + 1, true⟩,
         ⟨"Global", s.var_refs.length + 2, true⟩,
         ⟨"Buffer", s.var_refs.length + 3, true⟩,
         ⟨"Window", s.var_refs.length + 4, true⟩,
         ⟨"Tab", s.var_refs.length + 5, true⟩,
         ⟨"Vim", s.var_refs.length + 6, true⟩]) ∧
    (f.type ≠ "UFUNC" →
      (scopesRequest (pre ++ f :: post) frameId s).1.var_refs =
        s.var_refs ++ [⟨frameId, "s"⟩, ⟨frameId, "g"⟩, ⟨frameId, "b"⟩,
          ⟨frameId, "w"⟩, ⟨frameId, "t"⟩, ⟨frameId, "v"⟩] ∧
      (scopesRequest (pre ++ f :: post) frameId s).2.1 =
        [⟨"Script", s.var_refs.length, true⟩,
         ⟨"Global", s.var_refs.length + 1, true⟩,
         ⟨"Buffer", s.var_refs.length + 2, true⟩,
         ⟨"Window", s.var_refs.length + 3, true⟩,
         ⟨"Tab", s.var_refs.length + 4, true⟩,
         ⟨"Vim", s.var_refs.length + 5, true⟩]) ∧
    (scopesRequest (pre ++ f :: post) frameId s).2.2 =
      [Effect.sendResponse "scopes"] ∧
    ∀ i, i < s.var_refs.length →
      (scopesRequest (pre ++ f :: post) frameId s).1.var_refs[i]? =
        s.var_refs[i]? := by
  induction pre with
  | nil =>
      refine ⟨?_, ?_, ?_, ?_⟩
      · intro htype
        constructor
        · simp [scopesRequest, hf, scopesForFrame, pushScope, htype,
            List.append_assoc]
        · simp [scopesRequest, hf, scopesForFrame, pushScope, htype,
            List.length_append]
      · intro htype
        constructor
        · simp [scopesRequest, hf, scopesForFrame, pushScope, htype,
            List.append_assoc]
        · simp [scopesRequest, hf, scopesForFrame, pushScope, htype,
            List.length_append]
      · simp [scopesRequest, hf]
      · intro i hi
        by_cases htype : f.type = "UFUNC"
        · have hvr : (scopesRequest ([] ++ f :: post) frameId s).1.var_refs =
              s.var_refs ++ [⟨frameId, "l"⟩, ⟨frameId, "s"⟩, ⟨frameId, "g"⟩,
                ⟨frameId, "b"⟩, ⟨frameId, "w"⟩, ⟨frameId, "t"⟩, ⟨frameId, "v"⟩] := by
            simp [scopesRequest, hf, scopesForFrame, pushScope, htype,
              List.append_assoc]
          rw [hvr, List.getElem?_append]
          simp [hi]
        · have hvr : (scopesRequest ([] ++ f :: post) frameId s).1.var_refs =
              s.var_refs ++ [⟨frameId, "s"⟩, ⟨frameId, "g"⟩, ⟨frameId, "b"⟩,
                ⟨frameId, "w"⟩, ⟨frameId, "t"⟩, ⟨frameId, "v"⟩] := by
            simp [scopesRequest, hf, scopesForFrame, pushScope, htype,
              List.append_assoc]
          rw [hvr, List.getElem?_append]
          simp [hi]
  | cons g rest ih =>
      have hg : g.stack_level ≠ frameId := hpre g (List.mem_cons_self _ _)
      have hrest : ∀ x ∈ rest, x.stack_level ≠ frameId := fun x hx =>
        hpre x (List.mem_cons_of_mem _ hx)
      simpa [scopesRequest, hg] using ih hrest

/-- C8 witness: a `"UFUNC"` frame at stack level 0, against a table already
holding one entry — the local scope gets handle 1 (the prior length), the
others 2-7, the old entry is untouched. -/
theorem C8_scopes_append_only_witness :
    (scopesRequest [⟨0, "MyFunc", 3, none, none, "UFUNC"⟩] 0
        { var_refs := [⟨1, "g"⟩] }).1.var_refs =
      [⟨1, "g"⟩, ⟨0, "l"⟩, ⟨0, "s"⟩, ⟨0, "g"⟩, ⟨0, "b"⟩, ⟨0, "w"⟩, ⟨0, "t"⟩, ⟨0, "v"⟩] ∧
    (scopesRequest [⟨0, "MyFunc", 3, none, none, "UFUNC"⟩] 0
        { var_refs := [⟨1, "g"⟩] }).2.1 =
      [⟨"MyFunc", 1, false⟩, ⟨"Script", 2, true⟩, ⟨"Global", 3, true⟩,
       ⟨"Buffer", 4, true⟩, ⟨"Window", 5, true⟩, ⟨"Tab", 6, true⟩, ⟨"Vim", 7, true⟩] ∧
    (scopesRequest [⟨0, "MyFunc", 3, none, none, "UFUNC"⟩] 0
        { var_refs := [⟨1, "g"⟩] }).2.2 = [Effect.sendResponse "scopes"] := by
  have h := C8_scopes_append_only [] [] ⟨0, "MyFunc", 3, none, none, "UFUNC"⟩ 0
    { var_refs := [⟨1, "g"⟩] } (by intro g hg; cases hg) rfl
  exact ⟨(h.1 rfl).1, (h.1 rfl).2, h.2.2.1⟩

/-- C10 witness: the disconnect falls through at a concrete attach-mode
state. -/
theorem C10_attach_disconnect_unanswered_witness :
    ({ vim_connected := true, next_request_id := 4 } : SessionState).did_start_vim = false ∧
    ({ vim_connected := true, next_request_id := 4 } : SessionState).vim_command_request = none ∧
    disconnectRequest false { vim_connected := true, next_request_id := 4 } =
      ({ vim_connected := true, next_request_id := 4 }, []) :=
  ⟨rfl, rfl, C10_attach_disconnect_unanswered
    { vim_connected := true, next_request_id := 4 } rfl rfl⟩

end VimDebugAdapter
